import Mathlib

/-
Verification development for the tenantflow backend.

This file gives a shallow embedding of the two core subsystems of the
repository and proves/refutes the spec claims about them:

 * the booking lifecycle controller of src/routes/bookings.js
   (POST /book-room, PUT /booking/:id/status, PUT /booking/:id/cancel),
 * the available-rooms search of src/routes/admin.js
   (GET /available-rooms), including the Haversine distance, the geo
   filter and the application-side sorting.

Modelling conventions:
 * UUIDs are modelled as natural numbers; timestamps written by the code
   (`new Date().toISOString()`) are modelled as a `now : Nat` parameter.
 * DECIMAL database columns (rent, deposit, coordinates) are modelled as
   rationals; the in-process floating point arithmetic of the geo path is
   modelled over the reals.
 * The PostgREST `.single()` call yields a row exactly when precisely one
   row matches, and an error (surfaced as `none`, with `data = null`)
   otherwise; `!inner` embeds drop rows whose joined row is missing.
 * Notification inserts and activity logging write to tables that none of
   the claims read; they are outside the modelled state.
-/

inductive RoomStatus where
  | available | occupied | reserved | maintenance
deriving DecidableEq, Repr

inductive BookingStatus where
  | pending | approved | rejected | cancelled
deriving DecidableEq, Repr

/-- The request validator of PUT /booking/:id/status only admits
`status ∈ {approved, rejected}` (express-validator `isIn`). -/
inductive Decision where
  | approved | rejected
deriving DecidableEq, Repr

def Decision.toStatus : Decision → BookingStatus
  | .approved => .approved
  | .rejected => .rejected

structure Tenant where
  id : Nat
  user_id : Nat
  name : String
  room_number : Option String
deriving DecidableEq, Repr

structure Owner where
  id : Nat
  user_id : Nat
deriving DecidableEq, Repr

structure Property where
  id : Nat
  owner_id : Nat
  name : String
  address : String
  city : String
  state : String
  latitude : Option ℚ
  longitude : Option ℚ
deriving DecidableEq, Repr

structure Room where
  id : Nat
  property_id : Nat
  room_number : String
  room_type : String
  rent_amount : ℚ
  deposit_amount : Option ℚ
  latitude : Option ℚ
  longitude : Option ℚ
  status : RoomStatus
  created_at : String
  last_updated : Nat
deriving DecidableEq, Repr

structure Booking where
  id : Nat
  tenant_id : Nat
  room_id : Nat
  property_id : Nat
  move_in_date : String
  move_out_date : Option String
  status : BookingStatus
  tenant_notes : Option String
  owner_notes : Option String
  updated_at : Nat
deriving DecidableEq, Repr

structure Store where
  tenants : List Tenant
  owners : List Owner
  properties : List Property
  rooms : List Room
  bookings : List Booking
  nextBookingId : Nat
deriving DecidableEq, Repr

/-- PostgREST `.single()`: the row when exactly one row matches the filter,
`none` (an error, destructured by the code as `data = null`) otherwise. -/
def singleWhere (p : α → Prop) [DecidablePred p] (l : List α) : Option α :=
  match l.filter (fun a => decide (p a)) with
  | [a] => some a
  | _ => none

/-- The `properties!inner(..., owners!inner(...))` embed of the room query in
POST /book-room: the property row of the room and its owner row. -/
def joinPropOwner (s : Store) (pid : Nat) : Option (Property × Owner) :=
  match singleWhere (fun p : Property => p.id = pid) s.properties with
  | some p =>
    match singleWhere (fun o : Owner => o.id = p.owner_id) s.owners with
    | some o => some (p, o)
    | none => none
  | none => none

/-- The room query of POST /book-room: `rooms` filtered by
`id = roomId` and `status = 'available'`, with inner joins to the property
and its owner, read through `.single()`. -/
def roomAvailJoin (s : Store) (roomId : Nat) : Option (Room × Property × Owner) :=
  match singleWhere
      (fun r : Room => r.id = roomId ∧ r.status = .available ∧ (joinPropOwner s r.property_id).isSome)
      s.rooms with
  | some r =>
    match joinPropOwner s r.property_id with
    | some (p, o) => some (r, p, o)
    | none => none
  | none => none

inductive BookResp where
  | tenantNotFound
  | alreadyActive
  | roomNotAvailable
  | success (b : Booking)
deriving DecidableEq, Repr

/-- POST /book-room (src/routes/bookings.js lines 54-149), starting after the
input validation: tenant lookup, active-booking check, available-room lookup,
booking insert, room status update. -/
def createBooking (s : Store) (userId roomId : Nat) (moveIn : String)
    (moveOut notes : Option String) (now : Nat) : BookResp × Store :=
  match singleWhere (fun t : Tenant => t.user_id = userId) s.tenants with
  | none => (.tenantNotFound, s)
  | some t =>
    match singleWhere
        (fun b : Booking => b.tenant_id = t.id ∧ (b.status = .pending ∨ b.status = .approved))
        s.bookings with
    | some _ => (.alreadyActive, s)
    | none =>
      match roomAvailJoin s roomId with
      | none => (.roomNotAvailable, s)
      | some (_r, p, _o) =>
        let b : Booking :=
          { id := s.nextBookingId, tenant_id := t.id, room_id := roomId,
            property_id := p.id, move_in_date := moveIn, move_out_date := moveOut,
            status := .pending, tenant_notes := notes, owner_notes := none,
            updated_at := now }
        let s1 := { s with bookings := s.bookings ++ [b],
                           nextBookingId := s.nextBookingId + 1 }
        let s2 := { s1 with rooms := s1.rooms.map (fun (r2 : Room) =>
          if r2.id = roomId then { r2 with status := .reserved, last_updated := now } else r2) }
        (.success b, s2)

/-- The `tenants!inner, rooms!inner, properties!inner` embeds of the booking
query in PUT /booking/:id/status, with the `properties.owner_id = owner.id`
filter: a booking row survives the query iff its tenant, room and property
rows exist and the property belongs to the owner. -/
def bookingRowOk (s : Store) (oid : Nat) (b : Booking) : Bool :=
  (singleWhere (fun t : Tenant => t.id = b.tenant_id) s.tenants).isSome &&
  (singleWhere (fun r : Room => r.id = b.room_id) s.rooms).isSome &&
  (match singleWhere (fun p : Property => p.id = b.property_id) s.properties with
   | some p => decide (p.owner_id = oid)
   | none => false)

inductive DecideResp where
  | ownerNotFound
  | bookingNotFound
  | alreadyProcessed
  | updateFailed
  | success (b : Booking)
deriving DecidableEq, Repr

/-- PUT /booking/:bookingId/status (src/routes/bookings.js lines 230-338):
owner lookup, booking fetch with ownership verification, pending check,
booking update, then the room/tenant writes of the chosen decision. -/
def decideBooking (s : Store) (userId bookingId : Nat) (decision : Decision)
    (notes : Option String) (now : Nat) : DecideResp × Store :=
  match singleWhere (fun o : Owner => o.user_id = userId) s.owners with
  | none => (.ownerNotFound, s)
  | some o =>
    match singleWhere (fun b : Booking => b.id = bookingId ∧ bookingRowOk s o.id b = true)
        s.bookings with
    | none => (.bookingNotFound, s)
    | some b =>
      match singleWhere (fun r : Room => r.id = b.room_id) s.rooms with
      | none => (.bookingNotFound, s)
      | some room =>
        if b.status ≠ .pending then (.alreadyProcessed, s)
        else
          let s1 := { s with bookings := s.bookings.map (fun (b2 : Booking) =>
            if b2.id = bookingId then
              { b2 with status := decision.toStatus, owner_notes := notes, updated_at := now }
            else b2) }
          match singleWhere (fun b2 : Booking => b2.id = bookingId) s1.bookings with
          | none => (.updateFailed, s1)
          | some ub =>
            match decision with
            | .approved =>
              let s2 := { s1 with rooms := s1.rooms.map (fun (r2 : Room) =>
                if r2.id = b.room_id then { r2 with status := .occupied, last_updated := now } else r2) }
              let s3 := { s2 with tenants := s2.tenants.map (fun (t2 : Tenant) =>
                if t2.id = b.tenant_id then { t2 with room_number := some room.room_number } else t2) }
              (.success ub, s3)
            | .rejected =>
              let s2 := { s1 with rooms := s1.rooms.map (fun (r2 : Room) =>
                if r2.id = b.room_id then { r2 with status := .available, last_updated := now } else r2) }
              (.success ub, s2)

/-- The `rooms!inner, properties!inner` embeds of the booking query in
PUT /booking/:id/cancel. -/
def cancelRowOk (s : Store) (b : Booking) : Bool :=
  (singleWhere (fun r : Room => r.id = b.room_id) s.rooms).isSome &&
  (singleWhere (fun p : Property => p.id = b.property_id) s.properties).isSome

inductive CancelResp where
  | tenantNotFound
  | bookingNotFound
  | alreadyCancelled
  | updateFailed
  | success (b : Booking)
deriving DecidableEq, Repr

/-- PUT /booking/:bookingId/cancel (src/routes/bookings.js lines 341-421):
tenant lookup, booking fetch restricted to the tenant, already-cancelled
check, booking update to `cancelled`, room set back to `available`. -/
def cancelBooking (s : Store) (userId bookingId : Nat) (now : Nat) : CancelResp × Store :=
  match singleWhere (fun t : Tenant => t.user_id = userId) s.tenants with
  | none => (.tenantNotFound, s)
  | some t =>
    match singleWhere
        (fun b : Booking => b.id = bookingId ∧ b.tenant_id = t.id ∧ cancelRowOk s b = true)
        s.bookings with
    | none => (.bookingNotFound, s)
    | some b =>
      if b.status = .cancelled then (.alreadyCancelled, s)
      else
        let s1 := { s with bookings := s.bookings.map (fun (b2 : Booking) =>
          if b2.id = bookingId then { b2 with status := .cancelled, updated_at := now } else b2) }
        match singleWhere (fun b2 : Booking => b2.id = bookingId) s1.bookings with
        | none => (.updateFailed, s1)
        | some ub =>
          let s2 := { s1 with rooms := s1.rooms.map (fun (r2 : Room) =>
            if r2.id = b.room_id then { r2 with status := .available, last_updated := now } else r2) }
          (.success ub, s2)

/- Observation helpers: the stored status of a booking / room and the
denormalized room number of a tenant, read back through `.single()`. -/

/-- Stored status of the booking with the given id. -/
def bookingStatusIn (s : Store) (bid : Nat) : Option BookingStatus :=
  (singleWhere (fun b : Booking => b.id = bid) s.bookings).map (·.status)

/-- Stored status of the room with the given id. -/
def roomStatusIn (s : Store) (rid : Nat) : Option RoomStatus :=
  (singleWhere (fun r : Room => r.id = rid) s.rooms).map (·.status)

/-- Stored denormalized room number of the tenant with the given id. -/
def tenantRoomNumberIn (s : Store) (tid : Nat) : Option (Option String) :=
  (singleWhere (fun t : Tenant => t.id = tid) s.tenants).map (·.room_number)

/-- The tenant holds an active (`pending`/`approved`) booking. -/
def hasActive (s : Store) (tid : Nat) : Prop :=
  ∃ b ∈ s.bookings, b.tenant_id = tid ∧ (b.status = .pending ∨ b.status = .approved)

instance (s : Store) (tid : Nat) : Decidable (hasActive s tid) := by
  unfold hasActive; infer_instance

/-- The tenant holds at most one active booking (the data invariant of the
spec's data model, section 3). -/
def activeAtMostOne (s : Store) (tid : Nat) : Prop :=
  (s.bookings.filter (fun b =>
    decide (b.tenant_id = tid ∧ (b.status = .pending ∨ b.status = .approved)))).length ≤ 1

instance (s : Store) (tid : Nat) : Decidable (activeAtMostOne s tid) := by
  unfold activeAtMostOne; infer_instance

/- Interleaving model for POST /book-room. Each `await`ed data-store call of
the handler is one atomic step; between steps another request may run. The
program counter follows the source order: 0 tenant lookup, 1 active-booking
check, 2 available-room lookup with joins, 3 booking insert, 4 room update
to `reserved` (after which the 201 response is sent). -/

def BookResp.isSuccess : BookResp → Bool
  | .success _ => true
  | _ => false

structure ThreadSt where
  userId : Nat
  roomId : Nat
  moveIn : String
  moveOut : Option String
  notes : Option String
  pc : Nat
  tenant : Option Tenant
  roomRow : Option (Room × Property × Owner)
  myBooking : Option Booking
  resp : Option BookResp
deriving DecidableEq, Repr

/-- One atomic data-store round trip of a POST /book-room request. -/
def stepThread (now : Nat) (s : Store) (th : ThreadSt) : ThreadSt × Store :=
  if th.resp.isSome then (th, s) else
  match th.pc with
  | 0 =>
    match singleWhere (fun t : Tenant => t.user_id = th.userId) s.tenants with
    | none => ({ th with resp := some .tenantNotFound }, s)
    | some t => ({ th with tenant := some t, pc := 1 }, s)
  | 1 =>
    match th.tenant with
    | none => ({ th with resp := some .tenantNotFound }, s)
    | some t =>
      match singleWhere
          (fun b : Booking => b.tenant_id = t.id ∧ (b.status = .pending ∨ b.status = .approved))
          s.bookings with
      | some _ => ({ th with resp := some .alreadyActive }, s)
      | none => ({ th with pc := 2 }, s)
  | 2 =>
    match roomAvailJoin s th.roomId with
    | none => ({ th with resp := some .roomNotAvailable }, s)
    | some rj => ({ th with roomRow := some rj, pc := 3 }, s)
  | 3 =>
    match th.tenant, th.roomRow with
    | some t, some (_r, p, _o) =>
      let b : Booking :=
        { id := s.nextBookingId, tenant_id := t.id, room_id := th.roomId,
          property_id := p.id, move_in_date := th.moveIn, move_out_date := th.moveOut,
          status := .pending, tenant_notes := th.notes, owner_notes := none,
          updated_at := now }
      ({ th with myBooking := some b, pc := 4 },
       { s with bookings := s.bookings ++ [b], nextBookingId := s.nextBookingId + 1 })
    | _, _ => (th, s)
  | 4 =>
    match th.myBooking with
    | some b =>
      ({ th with resp := some (.success b) },
       { s with rooms := s.rooms.map (fun (r2 : Room) =>
          if r2.id = th.roomId then { r2 with status := .reserved, last_updated := now }
          else r2) })
    | none => (th, s)
  | _ => (th, s)

/-- Run a fixed number of steps of a single request. -/
def runThread (now : Nat) : Nat → Store → ThreadSt → ThreadSt × Store
  | 0, s, th => (th, s)
  | n + 1, s, th =>
    let p := stepThread now s th
    runThread now n p.2 p.1

/-- Interleave two requests under a schedule: `false` steps the first thread,
`true` the second. -/
def runSched (now : Nat) : List Bool → ThreadSt × ThreadSt × Store → ThreadSt × ThreadSt × Store
  | [], st => st
  | c :: cs, (a, b, s) =>
    if c then
      let p := stepThread now s b
      runSched now cs (a, p.1, p.2)
    else
      let p := stepThread now s a
      runSched now cs (p.1, b, p.2)

/-- A fresh POST /book-room request of `userId` for `roomId`. -/
def freshThread (userId roomId : Nat) (mi : String) (mo nt : Option String) : ThreadSt :=
  { userId := userId, roomId := roomId, moveIn := mi, moveOut := mo, notes := nt,
    pc := 0, tenant := none, roomRow := none, myBooking := none, resp := none }

/- GET /available-rooms (src/routes/admin.js lines 1314-1418): the
availability search. Query-string parameters are optional strings; numeric
ones go through JS parseFloat (NaN on non-numeric input), and JS truthiness
(`if (latitude && longitude)`, `radius ? ... : 10`) is tested on the raw
strings, where only an absent or empty string is falsy. -/

/-- Result of JS parseFloat in this model: a rational or NaN. -/
inductive JNum where
  | nan
  | val (q : ℚ)
deriving DecidableEq, Repr

/-- Split a character list into its leading digit run and the remainder. -/
def splitDigits : List Char → List Char × List Char
  | [] => ([], [])
  | c :: cs =>
    if c.isDigit then
      let p := splitDigits cs
      (c :: p.1, p.2)
    else ([], c :: cs)

def digitsToNat (l : List Char) : Nat :=
  l.foldl (fun n c => 10 * n + (c.toNat - 48)) 0

/-- JS parseFloat, modelled for plain decimal literals (optional leading
minus, digits, optional fractional part); every other string parses to NaN.
Full parseFloat would also accept exponents, leading whitespace and a
numeric prefix followed by junk — the claims only exercise fully-numeric
and fully-non-numeric strings, on which this model agrees with JS. -/
def parseSign : List Char → ℚ × List Char
  | [] => (1, [])
  | c :: cs => if c = '-' then (-1, cs) else (1, c :: cs)

def parseFloatQ (s : String) : JNum :=
  let p := parseSign s.data
  let ipr := splitDigits p.2
  if ipr.1 = [] then .nan
  else
    match ipr.2 with
    | [] => .val (p.1 * digitsToNat ipr.1)
    | c :: cs =>
      if c = '.' then
        let fpr := splitDigits cs
        if fpr.1 = [] ∨ fpr.2 ≠ [] then .nan
        else .val (p.1 * ((digitsToNat ipr.1 : ℚ) +
          (digitsToNat fpr.1 : ℚ) / (10 : ℚ) ^ fpr.1.length))
      else .nan

/-- JS truthiness of an optional query-string value: absent and empty are
falsy, every other string (including "0") is truthy. -/
def truthy : Option String → Bool
  | none => false
  | some s => s ≠ ""

structure Query where
  location : Option String
  maxRent : Option String
  minRent : Option String
  roomType : Option String
  latitude : Option String
  longitude : Option String
  radius : Option String
  sortBy : Option String
  sortOrder : Option String
deriving DecidableEq, Repr

/-- A row of the search query: a room with its `properties!inner` and
`owners!inner` embeds. -/
structure RoomRow where
  room : Room
  prop : Property
  owner : Owner
deriving DecidableEq, Repr

/-- The joined rows backing the search query (inner joins drop rooms whose
property or owner row is missing). -/
def roomRows (s : Store) : List RoomRow :=
  s.rooms.filterMap (fun r =>
    match singleWhere (fun p : Property => p.id = r.property_id) s.properties with
    | none => none
    | some p =>
      match singleWhere (fun o : Owner => o.id = p.owner_id) s.owners with
      | none => none
      | some o => some { room := r, prop := p, owner := o })

/-- Case-insensitive substring test (the `ilike %x%` pattern). -/
def strContains : List Char → List Char → Bool
  | _, [] => true
  | [], _ :: _ => false
  | a :: as, p :: ps => (p :: ps).isPrefixOf (a :: as) || strContains as (p :: ps)

def icontains (hay pat : String) : Bool :=
  strContains hay.toLower.data pat.toLower.data

def matchesLocation (q : Option String) (rr : RoomRow) : Bool :=
  match q with
  | none => true
  | some loc =>
    if loc = "" then true
    else icontains rr.prop.city loc || icontains rr.prop.state loc ||
      icontains rr.prop.address loc

/-- Postgres `rent_amount >= bound` where the bound may be NaN; numeric NaN
sorts above every number in Postgres, so `x >= NaN` is false. -/
def pgGe (x : ℚ) (bound : JNum) : Bool :=
  match bound with
  | .nan => false
  | .val q => decide (q ≤ x)

/-- Postgres `rent_amount <= bound`; `x <= NaN` is true since NaN sorts
above every number. -/
def pgLe (x : ℚ) (bound : JNum) : Bool :=
  match bound with
  | .nan => true
  | .val q => decide (x ≤ q)

def matchesMinRent (q : Option String) (rr : RoomRow) : Bool :=
  match q with
  | none => true
  | some str => if str = "" then true else pgGe rr.room.rent_amount (parseFloatQ str)

def matchesMaxRent (q : Option String) (rr : RoomRow) : Bool :=
  match q with
  | none => true
  | some str => if str = "" then true else pgLe rr.room.rent_amount (parseFloatQ str)

def matchesRoomType (q : Option String) (rr : RoomRow) : Bool :=
  match q with
  | none => true
  | some ty => if ty = "" then true else decide (rr.room.room_type = ty)

/-- The store-side filters of the search query: `status = 'available'` plus
the optional location / rent-range / room-type filters. -/
def baseCandidates (s : Store) (q : Query) : List RoomRow :=
  (roomRows s).filter (fun rr =>
    decide (rr.room.status = .available) && matchesLocation q.location rr &&
    matchesMinRent q.minRent rr && matchesMaxRent q.maxRent rr &&
    matchesRoomType q.roomType rr)

/-- The resolved sort column: `rent` and `deposit` map to their columns,
everything else (including absent) to `created_at`. -/
inductive OrderCol where
  | created | rent | deposit
deriving DecidableEq, Repr

def resolveOrderCol (sortBy : Option String) : OrderCol :=
  match sortBy with
  | some "rent" => .rent
  | some "deposit" => .deposit
  | _ => .created

/-- `ascending = false` by default; a truthy sortOrder sets it to
`sortOrder === 'asc'`. -/
def resolveAscending (sortOrder : Option String) : Bool :=
  match sortOrder with
  | none => false
  | some so => if so = "" then false else decide (so = "asc")

/-- `toRad` of the handler. -/
noncomputable def toRad (v : ℝ) : ℝ := v * Real.pi / 180

/-- JS Math.atan2. Only the `x > 0` branch is exercised by the Haversine
formula on non-antipodal inputs. -/
noncomputable def atan2 (y x : ℝ) : ℝ :=
  if 0 < x then Real.arctan (y / x)
  else if x < 0 ∧ 0 ≤ y then Real.arctan (y / x) + Real.pi
  else if x < 0 ∧ y < 0 then Real.arctan (y / x) - Real.pi
  else if x = 0 ∧ 0 < y then Real.pi / 2
  else if x = 0 ∧ y < 0 then -(Real.pi / 2)
  else 0

/-- The numeric core of the handler's `distanceKm`: Haversine distance with
Earth radius R = 6371 km, over the reals. -/
noncomputable def haversineDist (lat1 lon1 lat2 lon2 : ℝ) : ℝ :=
  let dLat := toRad (lat2 - lat1)
  let dLon := toRad (lon2 - lon1)
  let a := Real.sin (dLat / 2) * Real.sin (dLat / 2) +
    Real.cos (toRad lat1) * Real.cos (toRad lat2) *
      (Real.sin (dLon / 2) * Real.sin (dLon / 2))
  let c := 2 * atan2 (Real.sqrt a) (Real.sqrt (1 - a))
  6371 * c

/-- A `distance_km` value: JS null (unresolvable target coordinates), NaN
(the search center failed to parse), or a number. -/
inductive JDist where
  | null
  | nan
  | val (x : ℝ)

/-- The JS `||` fallback `r.latitude || prop.latitude`: a null or zero room
coordinate (both falsy in JS) falls back to the property's coordinate,
separately per coordinate. -/
def jsOr (x y : Option ℚ) : Option ℚ :=
  match x with
  | some v => if v = 0 then y else some v
  | none => y

/-- The handler's `distanceKm`: null when the target latitude or longitude
is null (checked first), NaN when the center parsed to NaN, otherwise the
Haversine distance. -/
noncomputable def distanceKm (lat1 lon1 : JNum) (lat2 lon2 : Option ℚ) : JDist :=
  match lat2, lon2 with
  | some la, some lo =>
    match lat1, lon1 with
    | .val a, .val b => .val (haversineDist (a : ℝ) (b : ℝ) (la : ℝ) (lo : ℝ))
    | _, _ => .nan
  | _, _ => .null

/-- A candidate row annotated with its `distance_km` (the `.map` step of the
geo path). -/
structure GeoRow where
  row : RoomRow
  distance_km : JDist

/-- The `.map` step: each room is annotated with the distance from the
search center to its coordinates with the `||` property fallback. -/
noncomputable def geoAnnotate (lat lon : JNum) (rows : List RoomRow) : List GeoRow :=
  rows.map (fun rr =>
    { row := rr,
      distance_km := distanceKm lat lon (jsOr rr.room.latitude rr.prop.latitude)
        (jsOr rr.room.longitude rr.prop.longitude) })

/-- The `.filter` step's predicate:
`r.distance_km === null || r.distance_km <= radKm`. A NaN distance or a NaN
radius fails the comparison. -/
noncomputable def keepInRadius (d : JDist) (rad : JNum) : Bool :=
  match d with
  | .null => true
  | .nan => false
  | .val x =>
    match rad with
    | .nan => false
    | .val q => decide (x ≤ (q : ℝ))

noncomputable def geoFilter (rad : JNum) (rows : List GeoRow) : List GeoRow :=
  rows.filter (fun gr => keepInRadius gr.distance_km rad)

def isNullDist (gr : GeoRow) : Bool :=
  match gr.distance_km with
  | .null => true
  | _ => false

/- Array.prototype.sort: a stable comparison sort. `insertJS lt x acc`
places `x` after every already-placed element it does not strictly precede,
so elements the comparator treats as equal (returns 0 or NaN) keep their
relative order — in particular an all-NaN comparator leaves the array
unchanged, as the ECMAScript stable sort does. -/

def insertJS (lt : α → α → Bool) (x : α) : List α → List α
  | [] => [x]
  | y :: ys => if lt x y then x :: y :: ys else y :: insertJS lt x ys

def sortJS (lt : α → α → Bool) (l : List α) : List α :=
  l.foldl (fun acc x => insertJS lt x acc) []

/-- The distance sort key `(a.distance_km || Infinity)`: null, NaN and 0 are
all falsy in JS, so they all become Infinity (⊤). -/
noncomputable def distKey (d : JDist) : WithTop ℝ :=
  match d with
  | .null => ⊤
  | .nan => ⊤
  | .val x => if x = 0 then ⊤ else (x : WithTop ℝ)

/-- `comparator(a,b) = (a.distance_km || Infinity) - (b.distance_km || Infinity)`;
`a` strictly precedes `b` iff the comparator is negative, i.e. iff
`distKey a < distKey b` (Infinity - Infinity is NaN, which is not `< 0`). -/
noncomputable def ltDist (a b : GeoRow) : Bool :=
  decide (distKey a.distance_km < distKey b.distance_km)

/-- A column value as the JS comparator sees it (`a[orderColumn] ?? null`). -/
inductive ColVal where
  | null
  | num (q : ℚ)
  | str (s : String)
deriving DecidableEq, Repr

def getCol (col : OrderCol) (rr : RoomRow) : ColVal :=
  match col with
  | .rent => .num rr.room.rent_amount
  | .deposit =>
    match rr.room.deposit_amount with
    | some q => .num q
    | none => .null
  | .created => .str rr.room.created_at

/-- The non-distance comparator of the geo path, as "a strictly precedes b":
nulls never precede and are always preceded (sorted last either direction);
two numbers compare by `av - bv` (or `bv - av` when descending); any string
operand (`created_at` is an ISO timestamp string, not numeric) makes the
subtraction NaN, which is not `< 0`, so nothing strictly precedes. -/
def ltCol (asc : Bool) (col : OrderCol) (a b : GeoRow) : Bool :=
  match getCol col a.row, getCol col b.row with
  | .null, _ => false
  | _, .null => true
  | .num x, .num y => if asc then decide (x < y) else decide (y < x)
  | _, _ => false

/-- Postgres-side `order(orderColumn, { ascending })` of the non-geo path:
numeric columns numerically, `created_at` chronologically (ISO strings of
equal format order lexicographically); Postgres puts NULLs last for ASC and
first for DESC by default. -/
def pgLtVal (asc : Bool) (a b : ColVal) : Bool :=
  match a, b with
  | .null, .null => false
  | .null, _ => !asc
  | _, .null => asc
  | .num x, .num y => if asc then decide (x < y) else decide (y < x)
  | .str x, .str y => if asc then decide (x < y) else decide (y < x)
  | _, _ => false

def dbOrder (asc : Bool) (col : OrderCol) (rows : List RoomRow) : List RoomRow :=
  sortJS (fun a b => pgLtVal asc (getCol col a) (getCol col b)) rows

inductive SearchResp where
  | geo (rooms : List GeoRow) (centerLat centerLon : JNum) (radiusKm : JNum)
  | plain (rooms : List RoomRow)

/-- GET /available-rooms: store-side filters; if both latitude and longitude
are truthy, the geo path annotates, filters by radius (default 10) and sorts
in process; otherwise ordering is delegated to the store. -/
noncomputable def availableRooms (s : Store) (q : Query) : SearchResp :=
  let cands := baseCandidates s q
  let col := resolveOrderCol q.sortBy
  let asc := resolveAscending q.sortOrder
  if truthy q.latitude && truthy q.longitude then
    let lat := parseFloatQ (q.latitude.getD "")
    let lon := parseFloatQ (q.longitude.getD "")
    let radKm := if truthy q.radius then parseFloatQ (q.radius.getD "") else .val 10
    let kept := geoFilter radKm (geoAnnotate lat lon cands)
    let sorted :=
      if q.sortBy = some "distance" then sortJS ltDist kept else sortJS (ltCol asc col) kept
    .geo sorted lat lon radKm
  else
    .plain (dbOrder asc col cands)

/-- The authenticated principal an auth middleware would attach to the
request; the `/available-rooms` route registers no middleware, so the
handler body never reads it. -/
structure Principal where
  id : Nat
  role : String
deriving DecidableEq, Repr

structure Request where
  query : Query
  user : Option Principal

/-- The route handler: `router.get('/available-rooms', async (req, res))` —
no authenticateToken / authorizeRole in the chain, and the body only reads
`req.query`. -/
noncomputable def handleAvailableRooms (req : Request) (s : Store) : SearchResp :=
  availableRooms s req.query

/- Concrete stores used by witnesses and counterexamples. -/

/-- One tenant (user 1), one owner (user 10), one property, one available
room, no bookings. -/
def storeW : Store :=
  { tenants := [{ id := 1, user_id := 1, name := "A", room_number := none }],
    owners := [{ id := 1, user_id := 10 }],
    properties := [{ id := 1, owner_id := 1, name := "P", address := "addr",
                     city := "city", state := "st", latitude := none, longitude := none }],
    rooms := [{ id := 1, property_id := 1, room_number := "101", room_type := "single",
                rent_amount := 5000, deposit_amount := some 1000, latitude := none,
                longitude := none, status := .available, created_at := "2024-01-01",
                last_updated := 0 }],
    bookings := [],
    nextBookingId := 1 }

/-- The reserved room row of `storeP`. -/
def roomP : Room :=
  { id := 1, property_id := 1, room_number := "101", room_type := "single",
    rent_amount := 5000, deposit_amount := some 1000, latitude := none,
    longitude := none, status := .reserved, created_at := "2024-01-01",
    last_updated := 1 }

/-- The pending booking row of `storeP`. -/
def bookingP : Booking :=
  { id := 1, tenant_id := 1, room_id := 1, property_id := 1,
    move_in_date := "2024-06-01", move_out_date := none,
    status := .pending, tenant_notes := none, owner_notes := none,
    updated_at := 1 }

/-- Like `storeW` but with a pending booking of tenant 1 on room 1 and the
room reserved. -/
def storeP : Store :=
  { storeW with rooms := [roomP], bookings := [bookingP], nextBookingId := 2 }

/-- The booking row of `storeA`: already `approved`. -/
def bookingA : Booking :=
  { id := 1, tenant_id := 1, room_id := 1, property_id := 1,
    move_in_date := "2024-06-01", move_out_date := none, status := .approved,
    tenant_notes := none, owner_notes := none, updated_at := 1 }

/-- Like `storeP` but with the booking already approved. -/
def storeA : Store := { storeP with bookings := [bookingA] }

/-- Like `storeP` but with the booking already rejected and the room back to
`available`. -/
def storeR : Store :=
  { storeW with
    bookings := [{ id := 1, tenant_id := 1, room_id := 1, property_id := 1,
                   move_in_date := "2024-06-01", move_out_date := none,
                   status := .rejected, tenant_notes := none, owner_notes := none,
                   updated_at := 2 }],
    nextBookingId := 2 }

/-- The cancelled booking row of `storeC`. -/
def bookingC : Booking :=
  { id := 1, tenant_id := 1, room_id := 1, property_id := 1,
    move_in_date := "2024-06-01", move_out_date := none,
    status := .cancelled, tenant_notes := none, owner_notes := none,
    updated_at := 2 }

/-- Like `storeP` but with the booking already cancelled. -/
def storeC : Store :=
  { storeW with bookings := [bookingC], nextBookingId := 2 }

/-- Two tenants (users 1 and 2), one available room. -/
def store2 : Store :=
  { storeW with tenants := storeW.tenants ++ [{ id := 2, user_id := 2, name := "B", room_number := none }] }

/-- The interleaving in which both requests pass the active-booking check and
the room-availability check before either writes. -/
def raceSchedule : List Bool :=
  [false, false, false, true, true, true, false, false, true, true]

/-- Sort key realised by the deposit comparator: nulls become ⊤ (sorted
last either direction); descending order is ascending order of the negated
value. -/
def depositKey (asc : Bool) (gr : GeoRow) : WithTop ℚ :=
  match gr.row.room.deposit_amount with
  | none => ⊤
  | some q => if asc then (q : WithTop ℚ) else ((-q : ℚ) : WithTop ℚ)

/-- An empty search query. -/
def emptyQuery : Query :=
  { location := none, maxRent := none, minRent := none, roomType := none,
    latitude := none, longitude := none, radius := none, sortBy := none,
    sortOrder := none }

/-- Property at (13, 77). -/
def prop6 : Property :=
  { id := 1, owner_id := 1, name := "P", address := "addr", city := "city",
    state := "st", latitude := some 13, longitude := some 77 }

/-- Room with its own coordinates (0, 77): latitude 0 is a legitimate
coordinate (the equator) but is falsy in JS. -/
def room6 : Room :=
  { id := 1, property_id := 1, room_number := "101", room_type := "single",
    rent_amount := 5000, deposit_amount := some 1000, latitude := some 0,
    longitude := some 77, status := .available, created_at := "2024-01-01",
    last_updated := 0 }

def store6 : Store := { storeW with properties := [prop6], rooms := [room6] }

def row6 : RoomRow := { room := room6, prop := prop6, owner := { id := 1, user_id := 10 } }

/-- Geo search centered at (10, 77), radius 400. -/
def q6 : Query :=
  { emptyQuery with latitude := some "10", longitude := some "77", radius := some "400" }

/-- Two coordinate-less rooms with distinct creation times, in creation
order. -/
def room71 : Room :=
  { id := 1, property_id := 1, room_number := "101", room_type := "single",
    rent_amount := 5000, deposit_amount := some 1000, latitude := none,
    longitude := none, status := .available, created_at := "2024-01-01",
    last_updated := 0 }

def room72 : Room :=
  { id := 2, property_id := 1, room_number := "102", room_type := "single",
    rent_amount := 6000, deposit_amount := some 1000, latitude := none,
    longitude := none, status := .available, created_at := "2024-02-02",
    last_updated := 0 }

def store7 : Store := { storeW with rooms := [room71, room72] }

def propW : Property :=
  { id := 1, owner_id := 1, name := "P", address := "addr", city := "city",
    state := "st", latitude := none, longitude := none }

def row71 : RoomRow := { room := room71, prop := propW, owner := { id := 1, user_id := 10 } }

def row72 : RoomRow := { room := room72, prop := propW, owner := { id := 1, user_id := 10 } }

/-- Geo search with default sort (created_at, descending). -/
def q7 : Query := { emptyQuery with latitude := some "10", longitude := some "77" }

/-- Room exactly at the search center (10, 77). -/
def room9 : Room :=
  { id := 1, property_id := 1, room_number := "101", room_type := "single",
    rent_amount := 5000, deposit_amount := some 1000, latitude := some 10,
    longitude := some 77, status := .available, created_at := "2024-01-01",
    last_updated := 0 }

def store9 : Store := { storeW with rooms := [room9] }

def row9 : RoomRow := { room := room9, prop := propW, owner := { id := 1, user_id := 10 } }

/-- Geo search with a non-numeric radius. -/
def q9bad : Query :=
  { emptyQuery with latitude := some "10", longitude := some "77", radius := some "abc" }

/-- The same search without the radius parameter. -/
def q9good : Query :=
  { emptyQuery with latitude := some "10", longitude := some "77" }

/-- Row 9 annotated with its computed distance (the room is exactly at the
search center). -/
noncomputable def geoRow9 : GeoRow :=
  { row := row9,
    distance_km := JDist.val
      (haversineDist ((10 : ℚ) : ℝ) ((77 : ℚ) : ℝ) ((10 : ℚ) : ℝ) ((77 : ℚ) : ℝ)) }

/- ===================== theorems ===================== -/

lemma singleWhere_eq_some {p : α → Prop} [DecidablePred p] {l : List α} {a : α}
    (h : singleWhere p l = some a) : a ∈ l ∧ p a := by
  unfold singleWhere at h
  rcases hf : l.filter (fun a => decide (p a)) with _ | ⟨x, _ | ⟨y, t⟩⟩ <;> rw [hf] at h
  · simp at h
  · simp only [Option.some.injEq] at h
    subst h
    have := List.mem_filter.mp (hf ▸ List.mem_singleton_self x)
    simpa using this
  · simp at h

lemma singleWhere_eq_none_of_not_ex {p : α → Prop} [DecidablePred p] {l : List α}
    (h : ¬ ∃ a ∈ l, p a) : singleWhere p l = none := by
  unfold singleWhere
  have hf : l.filter (fun a => decide (p a)) = [] := by
    apply List.filter_eq_nil_iff.mpr
    intro a ha
    simp only [decide_eq_true_eq]
    exact fun hpa => h ⟨a, ha, hpa⟩
  rw [hf]

lemma singleWhere_filter_singleton {p : α → Prop} [DecidablePred p] {l : List α} {a : α}
    (h : l.filter (fun a => decide (p a)) = [a]) : singleWhere p l = some a := by
  unfold singleWhere
  rw [h]

/-- With pairwise-distinct keys, an element of the list is the unique `.single()`
result of its key filter. -/
lemma singleWhere_key (key : α → Nat) {l : List α} {a : α} {k : Nat}
    (hnd : (l.map key).Nodup) (ha : a ∈ l) (hk : key a = k) :
    singleWhere (fun x => key x = k) l = some a := by
  apply singleWhere_filter_singleton
  induction l with
  | nil => cases ha
  | cons x xs ih =>
    rw [List.map_cons, List.nodup_cons] at hnd
    rcases List.mem_cons.mp ha with rfl | hmem
    · have hx : decide (key a = k) = true := by simpa using hk
      have hrest : xs.filter (fun x => decide (key x = k)) = [] := by
        apply List.filter_eq_nil_iff.mpr
        intro b hb
        simp only [decide_eq_true_eq]
        intro hbk
        exact hnd.1 (hk ▸ hbk ▸ List.mem_map_of_mem key hb)
      simp [List.filter_cons, hx, hrest]
    · have hxk : ¬ (key x = k) := by
        intro hxe
        exact hnd.1 (hxe ▸ hk ▸ (hk ▸ List.mem_map_of_mem key hmem))
      simp only [List.filter_cons, decide_eq_true_eq]
      rw [if_neg hxk]
      exact ih hnd.2 hmem

/-- `.single()` commutes with a row-wise update that preserves the filter. -/
lemma singleWhere_map (p : α → Prop) [DecidablePred p] {f : α → α} {l : List α}
    (hf : ∀ a, p (f a) ↔ p a) :
    singleWhere p (l.map f) = (singleWhere p l).map f := by
  unfold singleWhere
  rw [List.filter_map]
  have hpred : (fun a => decide (p a)) ∘ f = fun a => decide (p a) := by
    funext a
    simp [Function.comp, hf a]
  rw [hpred]
  rcases l.filter (fun a => decide (p a)) with _ | ⟨x, _ | ⟨y, t⟩⟩ <;> simp

/-- Claim C1: for every createBooking request, if the tenant already holds a
`pending`/`approved` booking the operation fails with a conflict regardless of
the target room; if the target room is not available (no available-room row
with joined property and owner) the operation fails; otherwise a `pending`
booking is inserted, the room transitions to `reserved`, and the created
booking is returned. Stated under the data-model invariant that the tenant
holds at most one active booking. -/
theorem claim_C1_createBooking (s : Store) (userId roomId : Nat) (mi : String)
    (mo nt : Option String) (now : Nat) (t : Tenant)
    (ht : singleWhere (fun t : Tenant => t.user_id = userId) s.tenants = some t)
    (huniq : activeAtMostOne s t.id) :
    (hasActive s t.id → createBooking s userId roomId mi mo nt now = (.alreadyActive, s)) ∧
    (¬ hasActive s t.id → roomAvailJoin s roomId = none →
      createBooking s userId roomId mi mo nt now = (.roomNotAvailable, s)) ∧
    (¬ hasActive s t.id → ∀ r p o, roomAvailJoin s roomId = some (r, p, o) →
      ∃ b, (createBooking s userId roomId mi mo nt now).1 = .success b ∧
        b.status = .pending ∧ b.tenant_id = t.id ∧ b.room_id = roomId ∧
        (createBooking s userId roomId mi mo nt now).2.bookings = s.bookings ++ [b] ∧
        (∀ r2 ∈ (createBooking s userId roomId mi mo nt now).2.rooms,
          r2.id = roomId → r2.status = .reserved)) := by
  refine ⟨?_, ?_, ?_⟩
  · intro hact
    obtain ⟨b0, hb0, hcond⟩ := hact
    have hb0f : b0 ∈ s.bookings.filter
        (fun b => decide (b.tenant_id = t.id ∧ (b.status = .pending ∨ b.status = .approved))) := by
      rw [List.mem_filter]
      exact ⟨hb0, by simpa using hcond⟩
    unfold activeAtMostOne at huniq
    rcases hf : s.bookings.filter
        (fun b => decide (b.tenant_id = t.id ∧ (b.status = .pending ∨ b.status = .approved)))
      with _ | ⟨x, _ | ⟨y, tl⟩⟩
    · rw [hf] at hb0f; cases hb0f
    · have hsw : singleWhere
          (fun b : Booking => b.tenant_id = t.id ∧ (b.status = .pending ∨ b.status = .approved))
          s.bookings = some x := singleWhere_filter_singleton hf
      simp [createBooking, ht, hsw]
    · rw [hf] at huniq; simp at huniq
  · intro hna hroom
    have hsw : singleWhere
        (fun b : Booking => b.tenant_id = t.id ∧ (b.status = .pending ∨ b.status = .approved))
        s.bookings = none := singleWhere_eq_none_of_not_ex (by simpa [hasActive] using hna)
    simp [createBooking, ht, hsw, hroom]
  · intro hna r p o hroom
    have hsw : singleWhere
        (fun b : Booking => b.tenant_id = t.id ∧ (b.status = .pending ∨ b.status = .approved))
        s.bookings = none := singleWhere_eq_none_of_not_ex (by simpa [hasActive] using hna)
    refine ⟨{ id := s.nextBookingId, tenant_id := t.id, room_id := roomId,
              property_id := p.id, move_in_date := mi, move_out_date := mo,
              status := .pending, tenant_notes := nt, owner_notes := none,
              updated_at := now }, ?_, rfl, rfl, rfl, ?_, ?_⟩
    · simp [createBooking, ht, hsw, hroom]
    · simp [createBooking, ht, hsw, hroom]
    · intro r2 hr2 hid
      simp only [createBooking, ht, hsw, hroom] at hr2
      obtain ⟨r0, _hr0, rfl⟩ := List.mem_map.mp hr2
      by_cases h0 : r0.id = roomId
      · simp [h0]
      · exfalso
        apply h0
        simp [h0] at hid

/-- Witness for claim C1 at a concrete store: the hypotheses hold for
`storeW` and tenant 1, and the conclusion follows by the theorem. -/
theorem claim_C1_createBooking_witness :
    (singleWhere (fun t : Tenant => t.user_id = 1) storeW.tenants =
        some { id := 1, user_id := 1, name := "A", room_number := none }) ∧
    activeAtMostOne storeW 1 ∧
    ((hasActive storeW 1 →
        createBooking storeW 1 1 "2024-06-01" none none 7 = (.alreadyActive, storeW)) ∧
     (¬ hasActive storeW 1 → roomAvailJoin storeW 1 = none →
        createBooking storeW 1 1 "2024-06-01" none none 7 = (.roomNotAvailable, storeW)) ∧
     (¬ hasActive storeW 1 → ∀ r p o, roomAvailJoin storeW 1 = some (r, p, o) →
        ∃ b, (createBooking storeW 1 1 "2024-06-01" none none 7).1 = .success b ∧
          b.status = .pending ∧ b.tenant_id = 1 ∧ b.room_id = 1 ∧
          (createBooking storeW 1 1 "2024-06-01" none none 7).2.bookings =
            storeW.bookings ++ [b] ∧
          (∀ r2 ∈ (createBooking storeW 1 1 "2024-06-01" none none 7).2.rooms,
            r2.id = 1 → r2.status = .reserved))) :=
  ⟨by decide, by decide,
    claim_C1_createBooking storeW 1 1 "2024-06-01" none none 7
      { id := 1, user_id := 1, name := "A", room_number := none } (by decide) (by decide)⟩

lemma singleWhere_eq_some_filter {p : α → Prop} [DecidablePred p] {l : List α} {a : α}
    (h : singleWhere p l = some a) : l.filter (fun x => decide (p x)) = [a] := by
  unfold singleWhere at h
  rcases hf : l.filter (fun x => decide (p x)) with _ | ⟨x, _ | ⟨y, t⟩⟩ <;> rw [hf] at h
  · cases h
  · simp only [Option.some.injEq] at h
    rw [h]
  · cases h

/-- Claim C4: a decideBooking call on a booking whose stored status is not
`pending` fails (no success response) and leaves the store — both the
booking's and the room's stored state — entirely unchanged. -/
theorem claim_C4_decideBooking_nonpending (s : Store) (uid bid : Nat) (dec : Decision)
    (notes : Option String) (now : Nat) (b : Booking)
    (hb : singleWhere (fun x : Booking => x.id = bid) s.bookings = some b)
    (hnp : b.status ≠ .pending) :
    (decideBooking s uid bid dec notes now).2 = s ∧
    ∀ ub, (decideBooking s uid bid dec notes now).1 ≠ .success ub := by
  unfold decideBooking
  cases ho : singleWhere (fun o : Owner => o.user_id = uid) s.owners with
  | none => simp [ho]
  | some o =>
    cases hbj : singleWhere
        (fun x : Booking => x.id = bid ∧ bookingRowOk s o.id x = true) s.bookings with
    | none => simp [hbj]
    | some b' =>
      have hbb : b' = b := by
        have h1 := singleWhere_eq_some hbj
        have h2 : b' ∈ s.bookings.filter (fun x : Booking => decide (x.id = bid)) :=
          List.mem_filter.mpr ⟨h1.1, by simpa using h1.2.1⟩
        rw [singleWhere_eq_some_filter hb] at h2
        simpa using h2
      subst hbb
      cases hr : singleWhere (fun r : Room => r.id = b'.room_id) s.rooms with
      | none => simp [hbj, hr]
      | some room =>
        simp [hbj, hr, hnp]

/-- Witness for claim C4: in `storeA`, whose booking is already `approved`,
a decide call is rejected and changes nothing. -/
theorem claim_C4_decideBooking_nonpending_witness :
    (singleWhere (fun x : Booking => x.id = 1) storeA.bookings = some bookingA) ∧
    bookingA.status ≠ BookingStatus.pending ∧
    ((decideBooking storeA 10 1 .rejected none 9).2 = storeA ∧
     ∀ ub, (decideBooking storeA 10 1 .rejected none 9).1 ≠ .success ub) :=
  ⟨by decide, by decide,
    claim_C4_decideBooking_nonpending storeA 10 1 .rejected none 9 bookingA
      (by decide) (by decide)⟩

lemma id_pres_booking_update (bid : Nat) (st : BookingStatus) (notes : Option String) (now : Nat) :
    ∀ a : Booking,
      ((if a.id = bid then { a with status := st, owner_notes := notes, updated_at := now } else a).id = bid)
        ↔ a.id = bid := by
  intro a
  by_cases h : a.id = bid <;> simp [h]

/-- Claim C3: a decideBooking call by the owning property's owner on a
`pending` booking sets the booking to the decision; on `approved` it sets the
room to `occupied` and copies the room's number onto the tenant's denormalized
`room_number`; on `rejected` it sets the room back to `available`. -/
theorem claim_C3_decideBooking (s : Store) (uid bid : Nat) (notes : Option String) (now : Nat)
    (o : Owner) (b : Booking) (room : Room)
    (ho : singleWhere (fun o : Owner => o.user_id = uid) s.owners = some o)
    (hb : singleWhere (fun x : Booking => x.id = bid ∧ bookingRowOk s o.id x = true)
      s.bookings = some b)
    (hr : singleWhere (fun r : Room => r.id = b.room_id) s.rooms = some room)
    (hp : b.status = .pending)
    (hndB : (s.bookings.map Booking.id).Nodup) :
    ((∃ ub, (decideBooking s uid bid .approved notes now).1 = .success ub ∧
        ub.id = bid ∧ ub.status = .approved) ∧
      bookingStatusIn (decideBooking s uid bid .approved notes now).2 bid = some .approved ∧
      roomStatusIn (decideBooking s uid bid .approved notes now).2 b.room_id = some .occupied ∧
      tenantRoomNumberIn (decideBooking s uid bid .approved notes now).2 b.tenant_id =
        some (some room.room_number)) ∧
    ((∃ ub, (decideBooking s uid bid .rejected notes now).1 = .success ub ∧
        ub.id = bid ∧ ub.status = .rejected) ∧
      bookingStatusIn (decideBooking s uid bid .rejected notes now).2 bid = some .rejected ∧
      roomStatusIn (decideBooking s uid bid .rejected notes now).2 b.room_id = some .available) := by
  obtain ⟨hmemB, hidB, hok⟩ :
      b ∈ s.bookings ∧ (b.id = bid ∧ bookingRowOk s o.id b = true) := singleWhere_eq_some hb
  have hswB : singleWhere (fun x : Booking => x.id = bid) s.bookings = some b :=
    singleWhere_key Booking.id hndB hmemB hidB
  have hokt : ∃ t0, singleWhere (fun t : Tenant => t.id = b.tenant_id) s.tenants = some t0 := by
    simp only [bookingRowOk, Bool.and_eq_true, Option.isSome_iff_exists] at hok
    exact hok.1.1
  obtain ⟨t0, ht0⟩ := hokt
  have hroomid : room.id = b.room_id := (singleWhere_eq_some hr).2
  have ht0id : t0.id = b.tenant_id := (singleWhere_eq_some ht0).2
  have hcond : ¬ (b.status ≠ BookingStatus.pending) := by simp [hp]
  constructor
  · -- approved branch
    have hupd : singleWhere (fun b2 : Booking => b2.id = bid)
        (s.bookings.map (fun (b2 : Booking) =>
          if b2.id = bid then
            { b2 with status := Decision.approved.toStatus, owner_notes := notes,
                      updated_at := now }
          else b2)) =
        some { b with status := Decision.approved.toStatus, owner_notes := notes,
                      updated_at := now } := by
      rw [singleWhere_map (fun x : Booking => x.id = bid) (id_pres_booking_update bid _ notes now), hswB]
      simp [hidB]
    have hout : decideBooking s uid bid .approved notes now =
        (.success { b with status := Decision.approved.toStatus, owner_notes := notes,
                           updated_at := now },
         { s with
            bookings := s.bookings.map (fun (b2 : Booking) =>
              if b2.id = bid then
                { b2 with status := Decision.approved.toStatus, owner_notes := notes,
                          updated_at := now }
              else b2),
            rooms := s.rooms.map (fun (r2 : Room) =>
              if r2.id = b.room_id then { r2 with status := .occupied, last_updated := now }
              else r2),
            tenants := s.tenants.map (fun (t2 : Tenant) =>
              if t2.id = b.tenant_id then { t2 with room_number := some room.room_number }
              else t2) }) := by
      simp only [decideBooking, ho, hb, hr]
      rw [if_neg hcond, hupd]
    refine ⟨⟨_, by rw [hout], by simp [hidB], by simp [Decision.toStatus]⟩, ?_, ?_, ?_⟩
    · rw [hout]
      unfold bookingStatusIn
      rw [singleWhere_map (fun x : Booking => x.id = bid)
        (id_pres_booking_update bid _ notes now), hswB]
      simp [hidB, Decision.toStatus]
    · rw [hout]
      unfold roomStatusIn
      have hpres : ∀ a : Room,
          ((if a.id = b.room_id then { a with status := RoomStatus.occupied, last_updated := now }
            else a).id = b.room_id) ↔ a.id = b.room_id := by
        intro a
        by_cases h : a.id = b.room_id <;> simp [h]
      rw [singleWhere_map (fun x : Room => x.id = b.room_id) hpres, hr]
      simp [hroomid]
    · rw [hout]
      unfold tenantRoomNumberIn
      have hpres : ∀ a : Tenant,
          ((if a.id = b.tenant_id then { a with room_number := some room.room_number }
            else a).id = b.tenant_id) ↔ a.id = b.tenant_id := by
        intro a
        by_cases h : a.id = b.tenant_id <;> simp [h]
      rw [singleWhere_map (fun x : Tenant => x.id = b.tenant_id) hpres, ht0]
      simp [ht0id]
  · -- rejected branch
    have hupd : singleWhere (fun b2 : Booking => b2.id = bid)
        (s.bookings.map (fun (b2 : Booking) =>
          if b2.id = bid then
            { b2 with status := Decision.rejected.toStatus, owner_notes := notes,
                      updated_at := now }
          else b2)) =
        some { b with status := Decision.rejected.toStatus, owner_notes := notes,
                      updated_at := now } := by
      rw [singleWhere_map (fun x : Booking => x.id = bid) (id_pres_booking_update bid _ notes now), hswB]
      simp [hidB]
    have hout : decideBooking s uid bid .rejected notes now =
        (.success { b with status := Decision.rejected.toStatus, owner_notes := notes,
                           updated_at := now },
         { s with
            bookings := s.bookings.map (fun (b2 : Booking) =>
              if b2.id = bid then
                { b2 with status := Decision.rejected.toStatus, owner_notes := notes,
                          updated_at := now }
              else b2),
            rooms := s.rooms.map (fun (r2 : Room) =>
              if r2.id = b.room_id then { r2 with status := .available, last_updated := now }
              else r2) }) := by
      simp only [decideBooking, ho, hb, hr]
      rw [if_neg hcond, hupd]
    refine ⟨⟨_, by rw [hout], by simp [hidB], by simp [Decision.toStatus]⟩, ?_, ?_⟩
    · rw [hout]
      unfold bookingStatusIn
      rw [singleWhere_map (fun x : Booking => x.id = bid)
        (id_pres_booking_update bid _ notes now), hswB]
      simp [hidB, Decision.toStatus]
    · rw [hout]
      unfold roomStatusIn
      have hpres : ∀ a : Room,
          ((if a.id = b.room_id then { a with status := RoomStatus.available, last_updated := now }
            else a).id = b.room_id) ↔ a.id = b.room_id := by
        intro a
        by_cases h : a.id = b.room_id <;> simp [h]
      rw [singleWhere_map (fun x : Room => x.id = b.room_id) hpres, hr]
      simp [hroomid]

/-- Witness for claim C3 at `storeP`: owner (user 10) decides the pending
booking of tenant 1 on room 101. -/
theorem claim_C3_decideBooking_witness :
    ((singleWhere (fun o : Owner => o.user_id = 10) storeP.owners = some { id := 1, user_id := 10 }) ∧
     (singleWhere (fun x : Booking => x.id = 1 ∧ bookingRowOk storeP 1 x = true) storeP.bookings =
        some bookingP) ∧
     (singleWhere (fun r : Room => r.id = bookingP.room_id) storeP.rooms = some roomP) ∧
     bookingP.status = .pending ∧
     (storeP.bookings.map Booking.id).Nodup) ∧
    (((∃ ub, (decideBooking storeP 10 1 .approved none 9).1 = .success ub ∧
        ub.id = 1 ∧ ub.status = .approved) ∧
      bookingStatusIn (decideBooking storeP 10 1 .approved none 9).2 1 = some .approved ∧
      roomStatusIn (decideBooking storeP 10 1 .approved none 9).2 bookingP.room_id =
        some .occupied ∧
      tenantRoomNumberIn (decideBooking storeP 10 1 .approved none 9).2 bookingP.tenant_id =
        some (some roomP.room_number)) ∧
     ((∃ ub, (decideBooking storeP 10 1 .rejected none 9).1 = .success ub ∧
        ub.id = 1 ∧ ub.status = .rejected) ∧
      bookingStatusIn (decideBooking storeP 10 1 .rejected none 9).2 1 = some .rejected ∧
      roomStatusIn (decideBooking storeP 10 1 .rejected none 9).2 bookingP.room_id =
        some .available)) :=
  ⟨⟨by decide, by decide, by decide, by decide, by decide⟩,
    claim_C3_decideBooking storeP 10 1 none 9 { id := 1, user_id := 10 } bookingP roomP
      (by decide) (by decide) (by decide) (by decide) (by decide)⟩

lemma mem_map_update_of_ne {l : List Booking} {b : Booking} {f : Booking → Booking}
    (hmem : b ∈ l) (hfb : f b = b) : b ∈ l.map f := by
  have := List.mem_map_of_mem f hmem
  rwa [hfb] at this

/-- Counterexample to claim C5: `rejected` is not terminal. In `storeR` the
booking is `rejected`, yet the tenant's cancel call succeeds and moves it to
`cancelled` (the cancel handler only rejects bookings that are already
`cancelled`). -/
theorem claim_C5_counterexample :
    bookingStatusIn storeR 1 = some .rejected ∧
    (∃ ub, (cancelBooking storeR 1 1 5).1 = .success ub) ∧
    bookingStatusIn (cancelBooking storeR 1 1 5).2 1 = some .cancelled := by
  exact ⟨by decide,
    ⟨{ id := 1, tenant_id := 1, room_id := 1, property_id := 1,
       move_in_date := "2024-06-01", move_out_date := none,
       status := .cancelled, tenant_notes := none, owner_notes := none,
       updated_at := 5 }, by decide⟩,
    by decide⟩

/-- Claim C5, amended: `cancelled` is terminal — a booking stored as
`cancelled` is left untouched (same row, same status) by every operation
(createBooking, decideBooking, cancelBooking); `rejected` however is not
terminal: cancelBooking moves a `rejected` booking to `cancelled`
(see the counterexample). Stated under the primary-key invariant that
booking ids are pairwise distinct. -/
theorem claim_C5_cancelled_terminal (s : Store)
    (u1 r1 : Nat) (mi : String) (mo nt : Option String) (n1 : Nat)
    (u2 bid2 : Nat) (dec : Decision) (notes : Option String) (n2 : Nat)
    (u3 bid3 n3 : Nat)
    (b : Booking) (hmem : b ∈ s.bookings) (hc : b.status = .cancelled)
    (hnd : (s.bookings.map Booking.id).Nodup) :
    b ∈ (createBooking s u1 r1 mi mo nt n1).2.bookings ∧
    b ∈ (decideBooking s u2 bid2 dec notes n2).2.bookings ∧
    b ∈ (cancelBooking s u3 bid3 n3).2.bookings := by
  refine ⟨?_, ?_, ?_⟩
  · unfold createBooking
    split
    · exact hmem
    · split
      · exact hmem
      · split
        · exact hmem
        · exact List.mem_append_left _ hmem
  · unfold decideBooking
    split
    · exact hmem
    · next o ho2 =>
      split
      · exact hmem
      · next bji hbj =>
        split
        · exact hmem
        · next room hrj =>
          split
          · exact hmem
          · next hnotne =>
            have hst : bji.status = .pending := not_not.mp hnotne
            have hobt := singleWhere_eq_some hbj
            have hne : ¬ (b.id = bid2) := by
              intro hbid
              have hb_eq : b = bji :=
                List.inj_on_of_nodup_map hnd hmem hobt.1 (by rw [hbid, hobt.2.1])
              rw [← hb_eq, hc] at hst
              cases hst
            dsimp only
            repeat' split
            all_goals exact mem_map_update_of_ne hmem (if_neg hne)
  · unfold cancelBooking
    split
    · exact hmem
    · next t ht3 =>
      split
      · exact hmem
      · next bji hbj =>
        split
        · exact hmem
        · next hnotc =>
          have hobt := singleWhere_eq_some hbj
          have hne : ¬ (b.id = bid3) := by
            intro hbid
            have hb_eq : b = bji :=
              List.inj_on_of_nodup_map hnd hmem hobt.1 (by rw [hbid, hobt.2.1])
            rw [← hb_eq, hc] at hnotc
            exact hnotc rfl
          dsimp only
          repeat' split
          all_goals exact mem_map_update_of_ne hmem (if_neg hne)

/-- Witness for the amended claim C5 at `storeC`: the cancelled booking row
survives a createBooking, a decideBooking and a cancelBooking call untouched. -/
theorem claim_C5_cancelled_terminal_witness :
    (bookingC ∈ storeC.bookings ∧ bookingC.status = .cancelled ∧
      (storeC.bookings.map Booking.id).Nodup) ∧
    (bookingC ∈ (createBooking storeC 1 1 "2024-07-01" none none 9).2.bookings ∧
     bookingC ∈ (decideBooking storeC 10 1 .approved none 9).2.bookings ∧
     bookingC ∈ (cancelBooking storeC 1 1 9).2.bookings) :=
  ⟨⟨by decide, by decide, by decide⟩,
    claim_C5_cancelled_terminal storeC 1 1 "2024-07-01" none none 9 10 1 .approved none 9
      1 1 9 bookingC (by decide) (by decide) (by decide)⟩

/-- Fidelity check: running a single POST /book-room request to completion in
the step model produces exactly the response and store of `createBooking`. -/
theorem runThread_eq_createBooking (s : Store) (uid rid : Nat) (mi : String)
    (mo nt : Option String) (now : Nat) :
    (runThread now 5 s (freshThread uid rid mi mo nt)).1.resp =
      some (createBooking s uid rid mi mo nt now).1 ∧
    (runThread now 5 s (freshThread uid rid mi mo nt)).2 =
      (createBooking s uid rid mi mo nt now).2 := by
  cases h0 : singleWhere (fun t : Tenant => t.user_id = uid) s.tenants with
  | none => simp [runThread, stepThread, createBooking, freshThread, h0]
  | some t =>
    cases h1 : singleWhere
        (fun b : Booking => b.tenant_id = t.id ∧ (b.status = .pending ∨ b.status = .approved))
        s.bookings with
    | some bx => simp [runThread, stepThread, createBooking, freshThread, h0, h1]
    | none =>
      cases h2 : roomAvailJoin s rid with
      | none => simp [runThread, stepThread, createBooking, freshThread, h0, h1, h2]
      | some rj =>
        obtain ⟨r, p, o⟩ := rj
        simp [runThread, stepThread, createBooking, freshThread, h0, h1, h2]

/-- Claim C2 is violated by the code (no transaction around the
check-then-act sequence): under the interleaving `raceSchedule`, two
concurrent createBooking requests for the same `available` room both
succeed, and the store ends with two active (`pending`) bookings for
room 1 — not "at most one succeeds". -/
theorem claim_C2_race_double_booking :
    (runSched 7 raceSchedule
        (freshThread 1 1 "2024-06-01" none none,
         freshThread 2 1 "2024-06-01" none none, store2)).1.resp.map BookResp.isSuccess =
      some true ∧
    (runSched 7 raceSchedule
        (freshThread 1 1 "2024-06-01" none none,
         freshThread 2 1 "2024-06-01" none none, store2)).2.1.resp.map BookResp.isSuccess =
      some true ∧
    ((runSched 7 raceSchedule
        (freshThread 1 1 "2024-06-01" none none,
         freshThread 2 1 "2024-06-01" none none, store2)).2.2.bookings.filter
      (fun b => decide (b.room_id = 1 ∧ (b.status = .pending ∨ b.status = .approved)))).length =
      2 := by
  decide

/-- Claim C10: GET /available-rooms runs with no authentication or role
check; the handler never reads the request's principal, so for a fixed store
and query any two requests — anonymous or by any principal — get identical
responses. -/
theorem claim_C10_no_auth (s : Store) (q : Query) (u1 u2 : Option Principal) :
    handleAvailableRooms { query := q, user := u1 } s =
    handleAvailableRooms { query := q, user := u2 } s := rfl

lemma hav_self (lat lon : ℝ) : haversineDist lat lon lat lon = 0 := by
  simp [haversineDist, toRad, atan2]

lemma hav_symm (a b c d : ℝ) : haversineDist a b c d = haversineDist c d a b := by
  have h1 : ∀ x y : ℝ, Real.sin (toRad (x - y) / 2) * Real.sin (toRad (x - y) / 2) =
      Real.sin (toRad (y - x) / 2) * Real.sin (toRad (y - x) / 2) := by
    intro x y
    have hx : toRad (x - y) / 2 = -(toRad (y - x) / 2) := by
      unfold toRad
      ring
    rw [hx, Real.sin_neg]
    ring
  simp only [haversineDist]
  rw [h1 c a, h1 d b, mul_comm (Real.cos (toRad a)) (Real.cos (toRad c))]

/-- Claim C8: the Haversine distance vanishes on equal points and is
symmetric. -/
theorem claim_C8_distance_algebra :
    (∀ lat lon : ℝ, haversineDist lat lon lat lon = 0) ∧
    (∀ a b c d : ℝ, haversineDist a b c d = haversineDist c d a b) :=
  ⟨hav_self, hav_symm⟩

lemma atan2_pos_x (y x : ℝ) (hx : 0 < x) : atan2 y x = Real.arctan (y / x) := by
  unfold atan2
  rw [if_pos hx]

/-- On a meridian (equal longitudes) the Haversine distance of the handler
is the arc length R * |Δlat in radians|; stated for l1 ≤ l2 < l1 + 180. -/
lemma hav_meridian (l1 l2 lo : ℝ) (h1 : l1 ≤ l2) (h2 : l2 - l1 < 180) :
    haversineDist l1 lo l2 lo = 6371 * toRad (l2 - l1) := by
  have hpi := Real.pi_pos
  set θ : ℝ := toRad (l2 - l1) / 2 with hθdef
  have hd0 : 0 ≤ l2 - l1 := by linarith
  have hθ0 : 0 ≤ θ := by
    rw [hθdef]
    unfold toRad
    have h4 : 0 ≤ (l2 - l1) * Real.pi := mul_nonneg hd0 hpi.le
    nlinarith
  have hθlt : θ < Real.pi / 2 := by
    rw [hθdef]
    unfold toRad
    have h5 : (l2 - l1) * Real.pi < 180 * Real.pi := by nlinarith
    nlinarith
  have hsin : 0 ≤ Real.sin θ :=
    Real.sin_nonneg_of_nonneg_of_le_pi hθ0 (by linarith)
  have hcos : 0 < Real.cos θ :=
    Real.cos_pos_of_mem_Ioo ⟨by linarith, hθlt⟩
  have hlon : toRad (lo - lo) = 0 := by
    unfold toRad
    ring
  simp only [haversineDist]
  rw [hlon]
  norm_num [Real.sin_zero]
  rw [← hθdef]
  rw [Real.sqrt_mul_self hsin]
  have hb : 1 - Real.sin θ * Real.sin θ = Real.cos θ * Real.cos θ := by
    nlinarith [Real.sin_sq_add_cos_sq θ]
  rw [hb, Real.sqrt_mul_self hcos.le]
  rw [atan2_pos_x _ _ hcos]
  rw [← Real.tan_eq_sin_div_cos, Real.arctan_tan (by linarith) hθlt]
  rw [hθdef]
  ring

lemma parseFloatQ_ten : parseFloatQ "10" = JNum.val 10 := by
  have h : "10".data = ['1', '0'] := rfl
  simp [parseFloatQ, parseSign, splitDigits, digitsToNat, h]

lemma parseFloatQ_sevenseven : parseFloatQ "77" = JNum.val 77 := by
  have h : "77".data = ['7', '7'] := rfl
  simp [parseFloatQ, parseSign, splitDigits, digitsToNat, h]

/-- Counterexample to claim C6: room 6 has its own coordinates (0, 77), but
because latitude 0 is JS-falsy, the `r.latitude || prop.latitude` fallback
substitutes the property's latitude 13 while keeping the room's longitude:
the computed distance is the Haversine distance to (13, 77), not to the
room's own (0, 77) — and the two differ. -/
theorem claim_C6_counterexample :
    (geoAnnotate (parseFloatQ "10") (parseFloatQ "77") (baseCandidates store6 q6)).map
        (fun gr => gr.distance_km) =
      [JDist.val (haversineDist ((10 : ℚ) : ℝ) ((77 : ℚ) : ℝ) ((13 : ℚ) : ℝ) ((77 : ℚ) : ℝ))] ∧
    haversineDist ((10 : ℚ) : ℝ) ((77 : ℚ) : ℝ) ((13 : ℚ) : ℝ) ((77 : ℚ) : ℝ) ≠
      haversineDist ((10 : ℚ) : ℝ) ((77 : ℚ) : ℝ) ((0 : ℚ) : ℝ) ((77 : ℚ) : ℝ) := by
  constructor
  · rw [parseFloatQ_ten, parseFloatQ_sevenseven]
    rfl
  · push_cast
    intro h
    rw [hav_meridian 10 13 77 (by norm_num) (by norm_num)] at h
    rw [hav_symm 10 77 0 77, hav_meridian 0 10 77 (by norm_num) (by norm_num)] at h
    unfold toRad at h
    have hpi := Real.pi_pos
    nlinarith [h]

/-- Claim C6, amended: in the geo path each candidate room's distance is the
Haversine distance (R = 6371 km) from the search center to the coordinates
resolved by the JS-falsy fallback `room || property` applied per coordinate
(so a null or 0 room coordinate falls back to the property's); the distance
is null iff a resolved coordinate is missing; null-distance rooms always
pass the radius filter, and value-distance rooms pass iff distance ≤ radius
(boundary inclusive). -/
theorem claim_C6_geo_distance_filter :
    (∀ (lat lon la lo : ℚ),
        distanceKm (.val lat) (.val lon) (some la) (some lo) =
          .val (haversineDist (lat : ℝ) (lon : ℝ) (la : ℝ) (lo : ℝ))) ∧
    (∀ (lat1 lon1 : JNum) (lo : Option ℚ), distanceKm lat1 lon1 none lo = .null) ∧
    (∀ (lat1 lon1 : JNum) (la : ℚ), distanceKm lat1 lon1 (some la) none = .null) ∧
    (∀ (lat lon : JNum) (rows : List RoomRow),
        geoAnnotate lat lon rows = rows.map (fun rr =>
          { row := rr,
            distance_km := distanceKm lat lon (jsOr rr.room.latitude rr.prop.latitude)
              (jsOr rr.room.longitude rr.prop.longitude) })) ∧
    (∀ (rad : ℚ) (rows : List GeoRow) (gr : GeoRow),
        gr ∈ geoFilter (.val rad) rows ↔
          gr ∈ rows ∧ (gr.distance_km = .null ∨
            ∃ x, gr.distance_km = JDist.val x ∧ x ≤ (rad : ℝ))) := by
  refine ⟨fun _ _ _ _ => rfl, fun _ _ _ => rfl, fun _ _ _ => rfl, fun _ _ _ => rfl, ?_⟩
  intro rad rows gr
  unfold geoFilter
  rw [List.mem_filter]
  apply and_congr_right
  intro _
  rcases hd : gr.distance_km with _ | _ | x <;> simp [keepInRadius, hd]

lemma insertJS_perm (lt : α → α → Bool) (x : α) (l : List α) :
    (insertJS lt x l).Perm (x :: l) := by
  induction l with
  | nil => exact List.Perm.refl _
  | cons y ys ih =>
    unfold insertJS
    split
    · exact List.Perm.refl _
    · exact (ih.cons y).trans (List.Perm.swap x y ys)

lemma foldl_insertJS_perm (lt : α → α → Bool) :
    ∀ (l acc : List α), (l.foldl (fun acc x => insertJS lt x acc) acc).Perm (acc ++ l) := by
  intro l
  induction l with
  | nil => intro acc; simp
  | cons x xs ih =>
    intro acc
    rw [List.foldl_cons]
    refine (ih (insertJS lt x acc)).trans ?_
    refine (List.Perm.append_right xs (insertJS_perm lt x acc)).trans ?_
    exact List.perm_middle.symm

lemma sortJS_perm (lt : α → α → Bool) (l : List α) : (sortJS lt l).Perm l := by
  simpa [sortJS] using foldl_insertJS_perm lt l []

lemma insertJS_pairwise {R : α → α → Prop} {lt : α → α → Bool}
    (htrans : Transitive R)
    (hT : ∀ a b, lt a b = true → R a b) (hF : ∀ a b, lt a b = false → R b a)
    (x : α) : ∀ {l : List α}, l.Pairwise R → (insertJS lt x l).Pairwise R := by
  intro l
  induction l with
  | nil =>
    intro _
    simp [insertJS]
  | cons y ys ih =>
    intro hp
    rw [List.pairwise_cons] at hp
    unfold insertJS
    split
    next h =>
      rw [List.pairwise_cons]
      refine ⟨?_, ?_⟩
      · intro z hz
        rcases List.mem_cons.mp hz with hzy | hz2
        · rw [hzy]
          exact hT x y h
        · exact htrans (hT x y h) (hp.1 z hz2)
      · rw [List.pairwise_cons]
        exact hp
    next h =>
      rw [List.pairwise_cons]
      refine ⟨?_, ih hp.2⟩
      intro z hz
      have hz' := (insertJS_perm lt x ys).mem_iff.mp hz
      rcases List.mem_cons.mp hz' with hzx | hz2
      · rw [hzx]
        exact hF x y (by simpa using h)
      · exact hp.1 z hz2

lemma sortJS_pairwise {R : α → α → Prop} {lt : α → α → Bool}
    (htrans : Transitive R)
    (hT : ∀ a b, lt a b = true → R a b) (hF : ∀ a b, lt a b = false → R b a)
    (l : List α) : (sortJS lt l).Pairwise R := by
  have aux : ∀ (l acc : List α), acc.Pairwise R →
      (l.foldl (fun acc x => insertJS lt x acc) acc).Pairwise R := by
    intro l
    induction l with
    | nil =>
      intro acc h
      simpa using h
    | cons x xs ih =>
      intro acc h
      rw [List.foldl_cons]
      exact ih _ (insertJS_pairwise htrans hT hF x h)
  simpa [sortJS] using aux l [] List.Pairwise.nil

lemma insertJS_id_of_false (lt : α → α → Bool) (x : α) (l : List α)
    (h : ∀ a b, lt a b = false) : insertJS lt x l = l ++ [x] := by
  induction l with
  | nil => rfl
  | cons y ys ih => simp [insertJS, h, ih]

lemma sortJS_id_of_false (lt : α → α → Bool) (l : List α)
    (h : ∀ a b, lt a b = false) : sortJS lt l = l := by
  have aux : ∀ (l acc : List α), l.foldl (fun acc x => insertJS lt x acc) acc = acc ++ l := by
    intro l
    induction l with
    | nil => intro acc; simp
    | cons x xs ih =>
      intro acc
      rw [List.foldl_cons, insertJS_id_of_false lt x acc h, ih]
      simp
  simpa [sortJS] using aux l []

/-- Claim C7, amended: in the geo path, `sortBy=distance` sorts ascending by
the key `(distance_km || Infinity)` — null, NaN and 0 distances all map to
Infinity and therefore sort last; `sortBy=rent` / `sortBy=deposit` sort by
the numeric column honoring sortOrder, with null deposits last in either
direction; for any other sortBy the resolved column is `created_at`, whose
string values make the subtraction comparator return NaN, so the rows keep
their relative order (they are not sorted by `created_at`). -/
theorem claim_C7_geo_sorting :
    (∀ rows : List GeoRow,
        (sortJS ltDist rows).Perm rows ∧
        (sortJS ltDist rows).Pairwise
          (fun a b => distKey a.distance_km ≤ distKey b.distance_km)) ∧
    (∀ (asc : Bool) (rows : List GeoRow),
        (sortJS (ltCol asc .rent) rows).Perm rows ∧
        (sortJS (ltCol asc .rent) rows).Pairwise (fun a b =>
          if asc then a.row.room.rent_amount ≤ b.row.room.rent_amount
          else b.row.room.rent_amount ≤ a.row.room.rent_amount)) ∧
    (∀ (asc : Bool) (rows : List GeoRow),
        (sortJS (ltCol asc .deposit) rows).Perm rows ∧
        (sortJS (ltCol asc .deposit) rows).Pairwise
          (fun a b => depositKey asc a ≤ depositKey asc b)) ∧
    (∀ (asc : Bool) (rows : List GeoRow), sortJS (ltCol asc .created) rows = rows) := by
  refine ⟨?_, ?_, ?_, ?_⟩
  · intro rows
    refine ⟨sortJS_perm _ _, sortJS_pairwise ?_ ?_ ?_ rows⟩
    · intro a b c h1 h2
      exact le_trans h1 h2
    · intro a b h
      simp only [ltDist, decide_eq_true_eq] at h
      exact h.le
    · intro a b h
      simp only [ltDist, decide_eq_false_iff_not] at h
      exact le_of_not_lt h
  · intro asc rows
    refine ⟨sortJS_perm _ _, sortJS_pairwise ?_ ?_ ?_ rows⟩
    · intro a b c h1 h2
      cases asc <;> simp at h1 h2 ⊢
      · exact le_trans h2 h1
      · exact le_trans h1 h2
    · intro a b h
      cases asc <;> simp [ltCol, getCol] at h ⊢ <;> exact h.le
    · intro a b h
      cases asc <;> simp [ltCol, getCol] at h ⊢ <;> exact h
  · intro asc rows
    refine ⟨sortJS_perm _ _, sortJS_pairwise ?_ ?_ ?_ rows⟩
    · intro a b c h1 h2
      exact le_trans h1 h2
    · intro a b h
      rcases ha : a.row.room.deposit_amount with _ | qa <;>
        rcases hb : b.row.room.deposit_amount with _ | qb <;>
        cases asc <;>
        simp [ltCol, getCol, depositKey, ha, hb] at h ⊢
      · exact_mod_cast WithTop.coe_le_coe.mpr (neg_le_neg h.le)
      · exact_mod_cast WithTop.coe_le_coe.mpr h.le
    · intro a b h
      rcases ha : a.row.room.deposit_amount with _ | qa <;>
        rcases hb : b.row.room.deposit_amount with _ | qb <;>
        cases asc <;>
        simp [ltCol, getCol, depositKey, ha, hb] at h ⊢
      · exact_mod_cast WithTop.coe_le_coe.mpr (neg_le_neg h)
      · exact_mod_cast WithTop.coe_le_coe.mpr h
  · intro asc rows
    exact sortJS_id_of_false _ _ (fun a b => rfl)

/-- Counterexample to claim C7: in `store7` the geo search with default
sorting (resolved column `created_at`, default direction descending) returns
the rooms in their original order — the first returned room was created
strictly earlier than the second, so the result is not ordered descending by
`created_at`: the string-valued column makes every comparator call return
NaN and the sort never reorders. -/
theorem claim_C7_counterexample :
    availableRooms store7 q7 =
      .geo [{ row := row71, distance_km := .null }, { row := row72, distance_km := .null }]
        (parseFloatQ "10") (parseFloatQ "77") (JNum.val 10) ∧
    resolveOrderCol q7.sortBy = .created ∧
    resolveAscending q7.sortOrder = false ∧
    row71.room.created_at.data < row72.room.created_at.data := by
  refine ⟨rfl, rfl, rfl, by decide⟩

lemma parseFloatQ_abc : parseFloatQ "abc" = JNum.nan := by decide

/-- Counterexample to claim C9: a non-numeric `radius` is not treated as
absent. In `store9` the only room lies exactly at the search center; with
`radius=abc` the radius parses to NaN, `distance <= NaN` is false and the
room is excluded (empty result), while the same search without `radius`
uses the default 10 km and returns the room. The two searches differ, so
the parameter is not "treated as if it were absent". -/
theorem claim_C9_counterexample :
    availableRooms store9 q9bad = .geo [] (JNum.val 10) (JNum.val 77) JNum.nan ∧
    availableRooms store9 q9good = .geo [geoRow9] (JNum.val 10) (JNum.val 77) (JNum.val 10) := by
  constructor
  · have hstageb : availableRooms store9 q9bad =
        .geo (sortJS (ltCol false .created) (geoFilter (parseFloatQ "abc")
            (geoAnnotate (parseFloatQ "10") (parseFloatQ "77") (baseCandidates store9 q9bad))))
          (parseFloatQ "10") (parseFloatQ "77") (parseFloatQ "abc") := rfl
    rw [hstageb, parseFloatQ_ten, parseFloatQ_sevenseven, parseFloatQ_abc]
    rfl
  · have h0 : haversineDist ((10 : ℚ) : ℝ) ((77 : ℚ) : ℝ) ((10 : ℚ) : ℝ) ((77 : ℚ) : ℝ) = 0 :=
      hav_self _ _
    have hkeep : keepInRadius geoRow9.distance_km (JNum.val 10) = true := by
      simp only [geoRow9, keepInRadius, h0, decide_eq_true_eq]
      positivity
    have hstage : availableRooms store9 q9good =
        .geo (sortJS (ltCol false .created) (geoFilter (JNum.val 10)
            (geoAnnotate (parseFloatQ "10") (parseFloatQ "77") (baseCandidates store9 q9good))))
          (parseFloatQ "10") (parseFloatQ "77") (JNum.val 10) := rfl
    rw [hstage, parseFloatQ_ten, parseFloatQ_sevenseven]
    have hann : geoAnnotate (JNum.val 10) (JNum.val 77) (baseCandidates store9 q9good) =
        [geoRow9] := rfl
    rw [hann]
    have hfil : geoFilter (JNum.val 10) [geoRow9] = [geoRow9] := by
      simp [geoFilter, hkeep]
    rw [hfil]
    rfl

/-- Claim C9, amended: non-numeric numeric parameters are not treated as
absent — they parse to NaN and flow into the logic. In particular, with a
NaN radius the geo filter keeps exactly the null-distance rooms (every room
with a resolvable or NaN distance is excluded); the handler still answers
normally (no 500 arises in the in-process logic, which is total). -/
theorem claim_C9_nan_radius :
    (∀ rows : List GeoRow, geoFilter JNum.nan rows = rows.filter isNullDist) ∧
    parseFloatQ "abc" = JNum.nan ∧
    (∀ x : ℝ, keepInRadius (JDist.val x) JNum.nan = false) := by
  refine ⟨?_, parseFloatQ_abc, fun x => rfl⟩
  intro rows
  unfold geoFilter
  have hpred : (fun gr : GeoRow => keepInRadius gr.distance_km JNum.nan) = isNullDist := by
    funext gr
    rcases hgd : gr.distance_km <;> simp [keepInRadius, isNullDist, hgd]
  rw [hpred]
